import Mathlib

/-!
Verification of the checkout/order-creation core of the repository
(`useCheckoutContainerOrder`, `usePaymentWrapper`, `useOrderOperations`,
`cardProcessor`, `CheckoutForm`, card validation utilities).

JavaScript string operations are embedded over `List Char` / `String`;
the single-threaded JS event-loop semantics is embedded by treating each
synchronous block (code between `await` suspension points) as one atomic
step on an explicit state.
-/

namespace Checkout

/-- JS `s.trim()`: the string with leading and trailing whitespace removed. -/
def jsTrim (s : String) : String :=
  ⟨((s.data.dropWhile Char.isWhitespace).reverse.dropWhile Char.isWhitespace).reverse⟩

/-- JS `s.replace(/\s+/g, '')`: the string with every whitespace character removed. -/
def stripWhitespace (s : String) : String :=
  ⟨s.data.filter (fun ch => !ch.isWhitespace)⟩

/-- JS `s.replace(/\D/g, '')`: the string with every non-digit character removed. -/
def stripNonDigits (s : String) : String :=
  ⟨s.data.filter Char.isDigit⟩

/-- Value of a list of decimal digit characters, most significant first. -/
def digitsVal (l : List Char) : Nat :=
  l.foldl (fun a ch => a * 10 + (ch.toNat - 48)) 0

/-- JS `parseInt(s, 10)`: skip leading whitespace, take an optional sign and the
longest prefix of decimal digits; `none` models `NaN` (no digits found). -/
def jsParseInt (s : String) : Option Int :=
  let cs := s.data.dropWhile Char.isWhitespace
  match cs with
  | '-' :: rest =>
      let ds := rest.takeWhile Char.isDigit
      if ds.isEmpty then none else some (-(digitsVal ds : Int))
  | '+' :: rest =>
      let ds := rest.takeWhile Char.isDigit
      if ds.isEmpty then none else some (digitsVal ds : Int)
  | _ =>
      let ds := cs.takeWhile Char.isDigit
      if ds.isEmpty then none else some (digitsVal ds : Int)

/-! ## Card-field validation (`validateCardForm` in the card-validation module) -/

/-- Mirror of the `CardValidationErrors` record: one optional message per field. -/
structure CardValidationErrors where
  cardName : Option String
  cardNumber : Option String
  expiryMonth : Option String
  expiryYear : Option String
  cvv : Option String
deriving DecidableEq

/-- Source check `if (!cardName.trim()) errors.cardName = ...`. -/
def cardNameError (cardName : String) : Option String :=
  if jsTrim cardName = "" then some "Nome no cartão é obrigatório" else none

/-- Source check `if (cleanCardNumber.length < 16) errors.cardNumber = ...`
where `cleanCardNumber = cardNumber.replace(/\s+/g, '')`. -/
def cardNumberError (cardNumber : String) : Option String :=
  if (stripWhitespace cardNumber).length < 16 then some "Número do cartão inválido" else none

/-- Source check for `expiryMonth`: empty is required-error, otherwise
`parseInt(expiryMonth, 10)` must be a number in `1..12`. -/
def expiryMonthError (expiryMonth : String) : Option String :=
  if expiryMonth = "" then some "Mês de validade é obrigatório"
  else
    match jsParseInt expiryMonth with
    | none => some "Mês inválido (1-12)"
    | some month => if month < 1 ∨ 12 < month then some "Mês inválido (1-12)" else none

/-- Source check for `expiryYear`: empty is required-error, otherwise the length
must be exactly 2. -/
def expiryYearError (expiryYear : String) : Option String :=
  if expiryYear = "" then some "Ano de validade é obrigatório"
  else if expiryYear.length ≠ 2 then some "Ano inválido (AA)"
  else none

/-- Source check for `cvv`: `!cvv || cvv.length !== 3` is invalid, and the exact
string "000" is the rejected placeholder value. -/
def cvvError (cvv : String) : Option String :=
  if cvv = "" ∨ cvv.length ≠ 3 then some "CVV inválido"
  else if cvv = "000" then some "CVV inválido (não pode ser 000)"
  else none

/-- The record holding no error at all (JS `Object.keys(errors).length === 0`). -/
def noErrors : CardValidationErrors :=
  { cardName := none, cardNumber := none, expiryMonth := none, expiryYear := none, cvv := none }

/-- The `errors` record as `validateCardForm` fills it, one check per field in
source order. -/
def cardErrors (cardName cardNumber expiryMonth expiryYear cvv : String) :
    CardValidationErrors :=
  { cardName := cardNameError cardName
    cardNumber := cardNumberError cardNumber
    expiryMonth := expiryMonthError expiryMonth
    expiryYear := expiryYearError expiryYear
    cvv := cvvError cvv }

/-- `validateCardForm` from the card-validation module: accumulates the per-field
errors in field order and returns `null` (here `none`) when no field failed. -/
def validateCardForm (cardName cardNumber expiryMonth expiryYear cvv : String) :
    Option CardValidationErrors :=
  if cardErrors cardName cardNumber expiryMonth expiryYear cvv = noErrors then none
  else some (cardErrors cardName cardNumber expiryMonth expiryYear cvv)

/-- JS `Object.values(validationErrors)[0]`: keys are inserted in field-check
order (name, number, month, year, cvv), so the first value is the message of the
earliest-checked failing field. -/
def firstErrorValue (e : CardValidationErrors) : Option String :=
  match e.cardName with
  | some m => some m
  | none =>
    match e.cardNumber with
    | some m => some m
    | none =>
      match e.expiryMonth with
      | some m => some m
      | none =>
        match e.expiryYear with
        | some m => some m
        | none => e.cvv

/-- Acceptance predicate of claim C4, written from the claim's own words: name
non-empty, stripped card number 16 to 19 digits, expiry month an integer 1-12,
expiry year exactly 2 characters, CVV exactly 3 digits and not "000". -/
@[reducible] def c4ClaimedAccept (cardName cardNumber expiryMonth expiryYear cvv : String) : Prop :=
  let stripped := stripWhitespace cardNumber
  cardName ≠ "" ∧
  stripped.data.all Char.isDigit ∧ 16 ≤ stripped.length ∧ stripped.length ≤ 19 ∧
  1 ≤ (expiryMonth.toNat?).getD 0 ∧ (expiryMonth.toNat?).getD 0 ≤ 12 ∧
  expiryYear.length = 2 ∧
  cvv.length = 3 ∧ cvv.data.all Char.isDigit ∧ cvv ≠ "000"

/-! ## Card payment processing pipeline
(`processCardPayment` in `cardProcessor`, `handleCardFormSubmit` in `CheckoutForm`) -/

/-- Mirror of `CardFormData`: the five card fields of one submission. -/
structure CardFormData where
  cardName : String
  cardNumber : String
  expiryMonth : String
  expiryYear : String
  cvv : String
deriving DecidableEq

/-- The two settings fields `processCardPayment` consults (the full settings
object has further fields that the routing decision never reads). -/
structure AsaasSettings where
  manualCardProcessing : Bool
  isEnabled : Bool
deriving DecidableEq

/-- Which processing path a submission took. -/
inductive CardRoute
  | manual
  | automatic
deriving DecidableEq

/-- UI-visible state the pipeline mutates through its setters: the submitting
flag (`setIsSubmitting`), the shown error (`setError`), how often the gateway
collaborator was invoked, and which route was taken. -/
structure CheckoutUIState where
  submitting : Bool
  error : String
  gatewayCalls : Nat
  route : Option CardRoute
deriving DecidableEq

/-- Modelled from the spec: `validateCardData` (module `validators`, not under
src/) wraps the card-field validation; spec §4.3 step 1 runs the §6 card-field
format rules, which are the source file's `validateCardForm`. -/
def validateCardData (cardData : CardFormData) : Option CardValidationErrors :=
  validateCardForm cardData.cardName cardData.cardNumber cardData.expiryMonth
    cardData.expiryYear cardData.cvv

/-- Modelled from the spec: `processManual` (module `manualProcessor`, not under
src/). Spec §4.3 step 3: the manual-review path does not contact the gateway;
spec §7: the submitting flag is reset on every exit path. -/
def processManual (st : CheckoutUIState) : CheckoutUIState :=
  { st with submitting := false, route := some CardRoute.manual }

/-- Modelled from the spec: `processAutomatic` (module `automaticProcessor`, not
under src/). Spec §4.3 step 4: the automatic path invokes the external gateway
collaborator; spec §7: the submitting flag is reset on every exit path. -/
def processAutomatic (st : CheckoutUIState) : CheckoutUIState :=
  { st with submitting := false, gatewayCalls := st.gatewayCalls + 1,
            route := some CardRoute.automatic }

/-- Source condition `settings?.manualCardProcessing || !settings?.isEnabled`:
with no settings object, `settings?.isEnabled` is `undefined`, hence falsy, and
the processor routes manual. -/
def routesManual (settings : Option AsaasSettings) : Bool :=
  (match settings with | some s => s.manualCardProcessing | none => false)
  || !(match settings with | some s => s.isEnabled | none => false)

/-- `processCardPayment` from `cardProcessor`: on validation errors it sets the
first error value (`Object.values(validationErrors)[0]`, with the literal
fallback) and returns early — without touching the submitting flag; otherwise it
clears the error, sets submitting, and routes to the manual or automatic
processor per the settings. -/
def processCardPayment (cardData : CardFormData) (settings : Option AsaasSettings)
    (st : CheckoutUIState) : CheckoutUIState :=
  match validateCardData cardData with
  | some validationErrors =>
      { st with error := (firstErrorValue validationErrors).getD "Verifique os dados do cartão" }
  | none =>
      let st1 := { st with error := "", submitting := true }
      if routesManual settings then processManual st1 else processAutomatic st1

/-- `handleCardFormSubmit` from `CheckoutForm`: sets submitting before awaiting
`processCardPayment` (its catch branch, which would reset the flag, is not
reached on the deterministic paths modelled here, where nothing throws). -/
def handleCardFormSubmit (cardData : CardFormData) (settings : Option AsaasSettings)
    (st : CheckoutUIState) : CheckoutUIState :=
  processCardPayment cardData settings { st with submitting := true }

/-! ## Order creation in `useCheckoutContainerOrder` (`createOrder`)

`createOrder` runs no `await` between its three duplicate checks and the claim
of the payment id (`setIsProcessing(true)`, `processingRef.current = true`,
`globalPaymentsInProgress.set(paymentId, true)`), so in the single-threaded JS
event loop this whole prefix is one atomic step, modelled by
`createOrderCheckAndClaim`. The persistence step behind the `await` of
`createOrderService` is `createOrderPersist`; the 30-second safety `useEffect`
is `safetyTimeoutReset`; the `finally`'s delayed cleanup is
`createOrderFinally`. -/

/-- Per-hook-instance state: `isProcessing`/`processingRef` (always set and
reset together, modelled as one flag) and `orderCreatedRef`. -/
structure CheckoutInstance where
  processing : Bool
  orderCreated : Option String
deriving DecidableEq

/-- Process-wide state: every hook instance, the module-level
`globalPaymentsInProgress` map (its key set), and the persisted order store
(the payment ids of persisted orders, newest first). -/
structure CheckoutGlobal where
  insts : Nat → CheckoutInstance
  globalPaymentsInProgress : List String
  store : List String

/-- Pointwise update of the instance family at index `i`. -/
def setInst (f : Nat → CheckoutInstance) (i : Nat) (v : CheckoutInstance) :
    Nat → CheckoutInstance :=
  fun j => if j = i then v else f j

/-- The atomic check-and-claim prefix of `createOrder` on instance `i`: the
three duplicate checks in source order, each throwing its message, then the
claim of the busy flag and the global map entry. `none` means the checks
passed. -/
def createOrderCheckAndClaim (paymentId : String) (i : Nat) (g : CheckoutGlobal) :
    Option String × CheckoutGlobal :=
  if (g.insts i).processing then
    (some "Processing in progress. Please wait.", g)
  else if (g.insts i).orderCreated = some paymentId then
    (some "Order already created with this payment ID", g)
  else if paymentId ∈ g.globalPaymentsInProgress then
    (some "This payment is already being processed", g)
  else
    (none, { g with
      insts := setInst g.insts i { g.insts i with processing := true }
      globalPaymentsInProgress := paymentId :: g.globalPaymentsInProgress })

/-- The persistence step of a claiming invocation: `createOrderService` (an
external collaborator) succeeds and the new order reaches the store;
`orderCreatedRef.current = paymentId` records the created order. -/
def createOrderPersist (paymentId : String) (i : Nat) (g : CheckoutGlobal) : CheckoutGlobal :=
  { g with
    store := paymentId :: g.store
    insts := setInst g.insts i { g.insts i with orderCreated := some paymentId } }

/-- The 30-second safety `useEffect`: it resets `isProcessing` and
`processingRef` of instance `i` — and touches nothing else; in particular the
`globalPaymentsInProgress` entry stays. -/
def safetyTimeoutReset (i : Nat) (g : CheckoutGlobal) : CheckoutGlobal :=
  { g with insts := setInst g.insts i { g.insts i with processing := false } }

/-- The `finally` cleanup of a completed `createOrder` (2-second delay): resets
the instance flags and deletes the payment id from the global map. It runs only
once the `try`/`catch` body has completed. -/
def createOrderFinally (paymentId : String) (i : Nat) (g : CheckoutGlobal) : CheckoutGlobal :=
  { g with
    insts := setInst g.insts i { g.insts i with processing := false }
    globalPaymentsInProgress := g.globalPaymentsInProgress.erase paymentId }

/-- Runs the atomic check-and-claim steps of a list of interleaved `createOrder`
invocations (each given by its instance index, all with the same payment id) in
schedule order, collecting each invocation's thrown duplicate error (`none` =
the invocation passed its checks and claimed the id). -/
def runChecks (paymentId : String) : List Nat → CheckoutGlobal → List (Option String) × CheckoutGlobal
  | [], g => ([], g)
  | i :: rest, g =>
      ((createOrderCheckAndClaim paymentId i g).1 ::
         (runChecks paymentId rest (createOrderCheckAndClaim paymentId i g).2).1,
       (runChecks paymentId rest (createOrderCheckAndClaim paymentId i g).2).2)

/-! ## The payment wrapper (`handleOrderCreation` in `usePaymentWrapper`) -/

/-- State of one `usePaymentWrapper` instance plus the module-level
`processedPaymentIds` set it shares with every other instance;
`createOrderCalls` counts invocations of the `createOrder` callback. -/
structure WrapperState where
  processedPaymentIds : List String
  localProcessedPaymentIds : List String
  isProcessing : Bool
  createOrderCalls : Nat
deriving DecidableEq

/-- Source line `paymentId || payment_<Date.now()>`, with `Date.now()` as an
explicit `now` parameter. -/
def safePaymentIdOf (paymentId : String) (now : Nat) : String :=
  if paymentId = "" then "payment_" ++ toString now else paymentId

/-- `handleOrderCreation`: duplicate check against the global and local
processed sets, then the single-flight check, then marking (both sets and the
busy flag) and the `createOrder` invocation. The created order itself and the
status normalization are not needed by the claims and are abstracted to the
invocation counter. -/
def handleOrderCreation (paymentId : String) (now : Nat) (st : WrapperState) :
    Option String × WrapperState :=
  if safePaymentIdOf paymentId now ∈ st.processedPaymentIds
      ∨ safePaymentIdOf paymentId now ∈ st.localProcessedPaymentIds then
    (some ("A payment with ID " ++ safePaymentIdOf paymentId now
            ++ " is already being processed"), st)
  else if st.isProcessing then
    (some "Payment processing in progress, please wait", st)
  else
    (none, { st with
      isProcessing := true
      processedPaymentIds := safePaymentIdOf paymentId now :: st.processedPaymentIds
      localProcessedPaymentIds := safePaymentIdOf paymentId now :: st.localProcessedPaymentIds
      createOrderCalls := st.createOrderCalls + 1 })

/-- The wrapper's `finally` (1-second delay): resets only the busy flag; the
processed sets are deliberately kept (the source comments that the record of a
processed payment is retained). -/
def wrapperCleanup (st : WrapperState) : WrapperState :=
  { st with isProcessing := false }

/-! ## The order store operations (`addOrder` in `useOrderOperations`) -/

/-- State of one `useOrderOperations` instance plus the module-level
`pendingOrderIds` set and the persisted orders (payment ids, newest first). -/
structure OrderOpsState where
  pendingOrder : Bool
  processingRef : Option String
  pendingOrderIds : List String
  orders : List String
deriving DecidableEq

/-- Source line `orderData.paymentId || order_<Date.now()>`. -/
def orderPaymentIdOf (paymentIdInput : String) (now : Nat) : String :=
  if paymentIdInput = "" then "order_" ++ toString now else paymentIdInput

/-- `addOrder`: the instance-busy check, then the effective payment id
(`orderData.paymentId || order_<now>`), the global pending-id check and the
per-instance id check, then marking and persisting. The order-store
collaborator (`createOrder` of `../utils`, external) is modelled as succeeding
and prepending to the order list. -/
def addOrder (paymentIdInput : String) (now : Nat) (st : OrderOpsState) :
    Option String × OrderOpsState :=
  if st.pendingOrder then
    (some "Já existe um pedido em processamento", st)
  else if orderPaymentIdOf paymentIdInput now ∈ st.pendingOrderIds then
    (some ("Pedido com ID de pagamento " ++ orderPaymentIdOf paymentIdInput now
            ++ " já está em processamento"), st)
  else if st.processingRef = some (orderPaymentIdOf paymentIdInput now) then
    (some ("Pedido já está em processamento (" ++ orderPaymentIdOf paymentIdInput now ++ ")"), st)
  else
    (none, { st with
      pendingOrder := true
      processingRef := some (orderPaymentIdOf paymentIdInput now)
      pendingOrderIds := orderPaymentIdOf paymentIdInput now :: st.pendingOrderIds
      orders := orderPaymentIdOf paymentIdInput now :: st.orders })

/-- The `finally` of `addOrder` (1-second delay): resets the instance flags;
the deletion from `pendingOrderIds` is commented out in the source, so the
global set is retained. -/
def orderOpsCleanup (st : OrderOpsState) : OrderOpsState :=
  { st with pendingOrder := false, processingRef := none }

/-! ## Customer data preparation (`prepareCustomerData`) -/

/-- The checkout form fields `prepareCustomerData` reads. -/
structure CheckoutFormState where
  fullName : String
  email : String
  cpf : String
  phone : String
  street : String
  number : String
  complement : String
  neighborhood : String
  city : String
  state : String
  cep : String
deriving DecidableEq

/-- Mirror of the prepared address object. -/
structure Address where
  street : String
  number : String
  complement : String
  neighborhood : String
  city : String
  state : String
  postalCode : String
deriving DecidableEq

/-- Mirror of `CustomerData` as prepared for the order store. -/
structure CustomerData where
  name : String
  email : String
  cpf : String
  phone : String
  address : Option Address
deriving DecidableEq

/-- `prepareCustomerData`: copies the identity fields (the cpf untouched) and
builds the address — with `postalCode` as `formState.cep.replace(/\D/g, '')` —
only when `formState.street` is truthy (non-empty). -/
def prepareCustomerData (formState : CheckoutFormState) : CustomerData :=
  { name := formState.fullName
    email := formState.email
    cpf := formState.cpf
    phone := formState.phone
    address :=
      if formState.street = "" then none
      else some
        { street := formState.street
          number := formState.number
          complement := formState.complement
          neighborhood := formState.neighborhood
          city := formState.city
          state := formState.state
          postalCode := stripNonDigits formState.cep } }

/-! ## Card number masking (`maskCardNumber`) -/

/-- Whether the next four characters exist and are all digits: the regex
lookahead `(?=\d{4})`. -/
def digit4After (l : List Char) : Bool :=
  match l with
  | a :: b :: c :: d :: _ => a.isDigit && b.isDigit && c.isDigit && d.isDigit
  | _ => false

/-- The global replace `cardNumber.replace(/\d(?=\d{4})/g, '*')` over the
character list: each match consumes exactly one digit (the lookahead consumes
nothing), so the scan replaces a digit by '*' exactly when the four characters
after it are digits. -/
def maskChars : List Char → List Char
  | [] => []
  | c :: rest => (if c.isDigit && digit4After rest then '*' else c) :: maskChars rest

/-- `maskCardNumber` from the card-validation module. -/
def maskCardNumber (cardNumber : String) : String :=
  ⟨maskChars cardNumber.data⟩

/-- Claim C10's masking condition at position `i`, written from the claim's
words: the character there is a digit immediately followed by at least 4 more
digits. -/
def c10MaskedAt (s : List Char) (i : Nat) : Bool :=
  match s.drop i with
  | c :: rest => c.isDigit && digit4After rest
  | [] => false

/-! ## Concrete inputs used by counterexamples and witnesses -/

/-- A card submission whose only invalid field is the empty name. -/
def c3FailingCard : CardFormData :=
  { cardName := "", cardNumber := "4111111111111111", expiryMonth := "12",
    expiryYear := "25", cvv := "123" }

/-- A fully valid card submission. -/
def validCard : CardFormData :=
  { cardName := "A", cardNumber := "4111111111111111", expiryMonth := "12",
    expiryYear := "25", cvv := "123" }

/-- The spec's own determinism test input: 15 digits after stripping spaces. -/
def shortNumberCard : CardFormData :=
  { cardName := "A", cardNumber := "4111 1111 1111 111", expiryMonth := "12",
    expiryYear := "25", cvv := "123" }

/-- A pristine UI state before any submission. -/
def initialUIState : CheckoutUIState :=
  { submitting := false, error := "", gatewayCalls := 0, route := none }

/-- A process state with no instance busy, nothing claimed and an empty store. -/
def cleanCheckoutState : CheckoutGlobal :=
  { insts := fun _ => { processing := false, orderCreated := none }
    globalPaymentsInProgress := []
    store := [] }

/-- A freshly mounted wrapper instance over an empty shared registry. -/
def freshWrapperState : WrapperState :=
  { processedPaymentIds := [], localProcessedPaymentIds := [], isProcessing := false,
    createOrderCalls := 0 }

/-- A form state whose CPF and CEP both contain punctuation. -/
def c8FormState : CheckoutFormState :=
  { fullName := "Ana Lima", email := "ana@example.com", cpf := "111.444.777-35",
    phone := "11999990000", street := "Av. Paulista", number := "100", complement := "",
    neighborhood := "Bela Vista", city := "São Paulo", state := "SP", cep := "01310-100" }

/-! ## Theorems -/

theorem maskChars_length (s : List Char) : (maskChars s).length = s.length := by
  induction s with
  | nil => rfl
  | cons c rest ih => simp [maskChars, ih]

theorem maskChars_get? (s : List Char) :
    ∀ i : Nat, (maskChars s).get? i = if c10MaskedAt s i then some '*' else s.get? i := by
  induction s with
  | nil => intro i; simp [maskChars, c10MaskedAt]
  | cons c rest ih =>
      intro i
      cases i with
      | zero =>
          by_cases h : c.isDigit && digit4After rest <;>
            simp [maskChars, c10MaskedAt, h]
      | succ n =>
          have hdrop : c10MaskedAt (c :: rest) (n + 1) = c10MaskedAt rest n := by
            simp [c10MaskedAt, List.drop_succ_cons]
          simp only [maskChars, List.get?_cons_succ, hdrop]
          exact ih n

theorem digit4After_countP (l : List Char) (h : digit4After l = true) :
    4 ≤ l.countP (fun ch => ch.isDigit) := by
  match l with
  | [] => simp [digit4After] at h
  | [a] => simp [digit4After] at h
  | [a, b] => simp [digit4After] at h
  | [a, b, c] => simp [digit4After] at h
  | a :: b :: c :: d :: t =>
      simp only [digit4After, Bool.and_eq_true] at h
      obtain ⟨⟨⟨ha, hb⟩, hc⟩, hd⟩ := h
      simp [List.countP_cons, ha, hb, hc, hd]

theorem maskChars_of_few_digits (s : List Char) :
    s.countP (fun ch => ch.isDigit) ≤ 4 → maskChars s = s := by
  induction s with
  | nil => intro _; rfl
  | cons c rest ih =>
      intro hle
      have hrest : rest.countP (fun ch => ch.isDigit) ≤ 4 := by
        have := List.countP_cons (fun ch => ch.isDigit) c rest
        omega
      by_cases h : c.isDigit && digit4After rest
      · exfalso
        simp only [Bool.and_eq_true] at h
        have h4 := digit4After_countP rest h.2
        have hcnt := List.countP_cons (fun ch => ch.isDigit) c rest
        rw [hcnt] at hle
        simp [h.1] at hle
        omega
      · simp [maskChars, h, ih hrest]

/-- Claim C10: `maskCardNumber` keeps the string's length, replaces with '*'
exactly those digit characters that are immediately followed by at least 4 more
digits (so the last 4 digits and every non-digit character stay in place), and
returns any string with at most 4 digits unchanged. -/
theorem maskCardNumber_characterization (s : String) :
    (maskCardNumber s).data = maskChars s.data ∧
    (maskCardNumber s).length = s.length ∧
    (∀ i : Nat, (maskCardNumber s).data.get? i =
       if c10MaskedAt s.data i then some '*' else s.data.get? i) ∧
    (s.data.countP (fun ch => ch.isDigit) ≤ 4 → maskCardNumber s = s) := by
  refine ⟨rfl, ?_, ?_, ?_⟩
  · show (maskChars s.data).length = s.data.length
    exact maskChars_length s.data
  · intro i
    exact maskChars_get? s.data i
  · intro hle
    show (⟨maskChars s.data⟩ : String) = s
    rw [maskChars_of_few_digits s.data hle]

/-- Witness for C10: the spec's §8 example is masked as stated, and a string
with only 5 digits but a space before the last 4 is left unchanged. -/
theorem maskCardNumber_characterization_witness :
    maskCardNumber "4111111111111111" = "************1111" ∧
    maskCardNumber "1234" = "1234" := by
  exact ⟨by decide, (maskCardNumber_characterization "1234").2.2.2 (by decide)⟩

/-- Counterexample to claim C4: a 20-digit card number (with valid remaining
fields) is accepted by `validateCardForm`, while the claim demands rejection of
every stripped number longer than 19 digits. -/
theorem validateCardForm_accepts_20_digit_number :
    validateCardForm "A" "12345678901234567890" "12" "25" "123" = none ∧
    ¬ c4ClaimedAccept "A" "12345678901234567890" "12" "25" "123" := by
  constructor
  · decide
  · decide

theorem cardNameError_eq_none (n : String) :
    cardNameError n = none ↔ jsTrim n ≠ "" := by
  unfold cardNameError
  split <;> simp_all

theorem cardNumberError_eq_none (c : String) :
    cardNumberError c = none ↔ 16 ≤ (stripWhitespace c).length := by
  unfold cardNumberError
  split <;> rename_i h <;> simp <;> omega

theorem expiryMonthError_eq_none (m : String) :
    expiryMonthError m = none ↔
      ∃ month : Int, jsParseInt m = some month ∧ 1 ≤ month ∧ month ≤ 12 := by
  unfold expiryMonthError
  by_cases hm : m = ""
  · subst hm
    have h0 : jsParseInt "" = none := rfl
    simp [h0]
  · rw [if_neg hm]
    cases hj : jsParseInt m with
    | none => simp
    | some month =>
        by_cases hr : month < 1 ∨ 12 < month
        · simp only [if_pos hr]
          constructor
          · intro h; exact absurd h (by simp)
          · rintro ⟨k, hk, h1, h2⟩
            exfalso
            injection hk with hk
            omega
        · simp only [if_neg hr]
          constructor
          · intro _
            exact ⟨month, rfl, by omega, by omega⟩
          · intro _; trivial

theorem expiryYearError_eq_none (y : String) :
    expiryYearError y = none ↔ y.length = 2 := by
  unfold expiryYearError
  by_cases hy : y = ""
  · subst hy
    simp
  · simp only [hy, if_false]
    split <;> rename_i h <;> simp_all

theorem cvvError_eq_none (v : String) :
    cvvError v = none ↔ v.length = 3 ∧ v ≠ "000" := by
  unfold cvvError
  by_cases h1 : v = "" ∨ v.length ≠ 3
  · simp only [h1, if_true]
    rcases h1 with h | h
    · subst h; simp
    · simp [h]
  · simp only [h1, if_false]
    push_neg at h1
    split <;> rename_i h2 <;> simp_all

theorem validateCardForm_eq_none_iff (n c m y v : String) :
    validateCardForm n c m y v = none ↔
      (cardNameError n = none ∧ cardNumberError c = none ∧ expiryMonthError m = none ∧
       expiryYearError y = none ∧ cvvError v = none) := by
  unfold validateCardForm
  split <;> rename_i h
  · simp only [cardErrors, noErrors, CardValidationErrors.mk.injEq] at h
    simp [h]
  · constructor
    · intro habs; exact absurd habs (by simp)
    · rintro ⟨h1, h2, h3, h4, h5⟩
      exact absurd (by simp [cardErrors, noErrors, h1, h2, h3, h4, h5]) h

/-- Amended claim C4: `validateCardForm` accepts iff the trimmed name is
non-empty, the whitespace-stripped card number has at least 16 characters (no
upper bound and no digits-only requirement), `parseInt` of the expiry month is
an integer 1-12 (trailing non-digits are tolerated), the expiry year has
exactly 2 characters, and the CVV has exactly 3 characters (digits not
required) and differs from "000". -/
theorem validateCardForm_accept_characterization (n c m y v : String) :
    validateCardForm n c m y v = none ↔
      (jsTrim n ≠ "" ∧
       16 ≤ (stripWhitespace c).length ∧
       (∃ month : Int, jsParseInt m = some month ∧ 1 ≤ month ∧ month ≤ 12) ∧
       y.length = 2 ∧
       v.length = 3 ∧ v ≠ "000") := by
  rw [validateCardForm_eq_none_iff, cardNameError_eq_none, cardNumberError_eq_none,
    expiryMonthError_eq_none, expiryYearError_eq_none, cvvError_eq_none]

theorem firstErrorValue_eq_none_iff (e : CardValidationErrors) :
    firstErrorValue e = none ↔ e = noErrors := by
  obtain ⟨cn, cnum, em, ey, cv⟩ := e
  cases cn <;> cases cnum <;> cases em <;> cases ey <;> cases cv <;>
    simp [firstErrorValue, noErrors]

/-- Claim C3 (code bug): on a validation failure — here an empty cardholder
name — the pipeline exits with the submitting flag still true:
`handleCardFormSubmit` sets it before the call and `processCardPayment`'s
validation-error branch returns early without resetting it, so the UI stays
stuck in the submitting state. -/
theorem card_submit_validation_failure_leaves_submitting :
    (handleCardFormSubmit c3FailingCard
        (some { manualCardProcessing := false, isEnabled := true }) initialUIState).submitting
      = true ∧
    (handleCardFormSubmit c3FailingCard
        (some { manualCardProcessing := false, isEnabled := true }) initialUIState).error
      = "Nome no cartão é obrigatório" ∧
    (handleCardFormSubmit c3FailingCard
        (some { manualCardProcessing := false, isEnabled := true }) initialUIState).gatewayCalls
      = 0 := by
  decide

/-- Claim C5: for any submission that passes validation, settings with
`manualCardProcessing = true` or `isEnabled = false` route to the manual-review
path and the gateway collaborator is invoked zero times; otherwise the
automatic path is taken and the gateway is invoked. -/
theorem processCardPayment_routing
    (cardData : CardFormData) (s : AsaasSettings) (st : CheckoutUIState)
    (hvalid : validateCardData cardData = none) :
    ((s.manualCardProcessing = true ∨ s.isEnabled = false) →
       (handleCardFormSubmit cardData (some s) st).route = some CardRoute.manual ∧
       (handleCardFormSubmit cardData (some s) st).gatewayCalls = st.gatewayCalls) ∧
    (s.manualCardProcessing = false → s.isEnabled = true →
       (handleCardFormSubmit cardData (some s) st).route = some CardRoute.automatic ∧
       (handleCardFormSubmit cardData (some s) st).gatewayCalls = st.gatewayCalls + 1) := by
  obtain ⟨mcp, en⟩ := s
  simp only [handleCardFormSubmit, processCardPayment, hvalid]
  cases mcp <;> cases en <;>
    simp [routesManual, processManual, processAutomatic]

/-- Witness for C5: the spec's routing test — `manualCardProcessing` true and
`isEnabled` true — yields the manual route with zero gateway invocations. -/
theorem processCardPayment_routing_witness :
    (handleCardFormSubmit validCard (some { manualCardProcessing := true, isEnabled := true })
        initialUIState).route = some CardRoute.manual ∧
    (handleCardFormSubmit validCard (some { manualCardProcessing := true, isEnabled := true })
        initialUIState).gatewayCalls = 0 := by
  have h := processCardPayment_routing validCard
      { manualCardProcessing := true, isEnabled := true } initialUIState (by decide)
  exact h.1 (Or.inl rfl)

/-- Claim C7: on a failing validation the pipeline reports exactly one error
message — `Object.values(validationErrors)[0]`, the message of the earliest
failing field in the order name, number, expiryMonth, expiryYear, cvv — and a
later field's message is reported only when every earlier field passed. -/
theorem processCardPayment_reports_first_error
    (cardData : CardFormData) (settings : Option AsaasSettings) (st : CheckoutUIState)
    (errs : CardValidationErrors) (hfail : validateCardData cardData = some errs) :
    ((processCardPayment cardData settings st).error
       = (firstErrorValue errs).getD "Verifique os dados do cartão") ∧
    (firstErrorValue errs).isSome = true ∧
    (∀ msg, errs.cardName = some msg → firstErrorValue errs = some msg) ∧
    (errs.cardName = none →
       ∀ msg, errs.cardNumber = some msg → firstErrorValue errs = some msg) ∧
    (errs.cardName = none → errs.cardNumber = none →
       ∀ msg, errs.expiryMonth = some msg → firstErrorValue errs = some msg) ∧
    (errs.cardName = none → errs.cardNumber = none → errs.expiryMonth = none →
       ∀ msg, errs.expiryYear = some msg → firstErrorValue errs = some msg) ∧
    (errs.cardName = none → errs.cardNumber = none → errs.expiryMonth = none →
       errs.expiryYear = none → firstErrorValue errs = errs.cvv) := by
  have hne : errs ≠ noErrors := by
    unfold validateCardData validateCardForm at hfail
    split at hfail
    · cases hfail
    · rename_i hcne
      injection hfail with hfail
      rw [← hfail]
      exact hcne
  refine ⟨?_, ?_, ?_, ?_, ?_, ?_, ?_⟩
  · simp [processCardPayment, hfail]
  · cases h : firstErrorValue errs with
    | none => exact absurd ((firstErrorValue_eq_none_iff errs).mp h) hne
    | some m => rfl
  · intro msg h
    simp [firstErrorValue, h]
  · intro h1 msg h
    simp [firstErrorValue, h1, h]
  · intro h1 h2 msg h
    simp [firstErrorValue, h1, h2, h]
  · intro h1 h2 h3 msg h
    simp [firstErrorValue, h1, h2, h3, h]
  · intro h1 h2 h3 h4
    simp [firstErrorValue, h1, h2, h3, h4]

/-- Witness for C7: the spec's determinism test — card number
"4111 1111 1111 111", 15 digits after stripping — reports the cardNumber error
and no other. -/
theorem processCardPayment_reports_first_error_witness :
    (processCardPayment shortNumberCard none initialUIState).error
      = "Número do cartão inválido" := by
  have h := processCardPayment_reports_first_error shortNumberCard none initialUIState
      (cardErrors "A" "4111 1111 1111 111" "12" "25" "123") (by decide)
  rw [h.1]
  decide

/-- Claim C9: while a `usePaymentWrapper` instance is processing one payment
(the busy flag set), every other `handleOrderCreation` call on that instance —
with any payment id, including a different one — throws and leaves the state
unchanged, so `createOrder` is not invoked. -/
theorem handleOrderCreation_single_flight
    (paymentId : String) (now : Nat) (st : WrapperState)
    (hbusy : st.isProcessing = true) :
    (handleOrderCreation paymentId now st).1.isSome = true ∧
    (handleOrderCreation paymentId now st).2 = st := by
  unfold handleOrderCreation
  split
  · exact ⟨rfl, rfl⟩
  · simp [hbusy]

/-- Witness for C9: an instance busy with payment "p1" rejects a call for the
different payment id "p2" without touching the state. -/
theorem handleOrderCreation_single_flight_witness :
    (handleOrderCreation "p2" 0
        { processedPaymentIds := ["p1"], localProcessedPaymentIds := ["p1"],
          isProcessing := true, createOrderCalls := 1 }).1.isSome = true ∧
    (handleOrderCreation "p2" 0
        { processedPaymentIds := ["p1"], localProcessedPaymentIds := ["p1"],
          isProcessing := true, createOrderCalls := 1 }).2
      = { processedPaymentIds := ["p1"], localProcessedPaymentIds := ["p1"],
          isProcessing := true, createOrderCalls := 1 } := by
  exact handleOrderCreation_single_flight "p2" 0 _ rfl

/-- Claim C2: a successful order creation for a payment id leaves that id in
the shared `processedPaymentIds` registry; neither the wrapper's delayed
cleanup nor any later call deletes it, and every later `handleOrderCreation`
for the same id — from any instance sharing the registry — throws a duplicate
error and changes nothing (in particular it never invokes `createOrder`). The
store-level registry `pendingOrderIds` behaves the same way: the id stays after
`addOrder`'s cleanup, and a later `addOrder` with it throws and persists
nothing. -/
theorem wrapper_registry_retained_blocks_recreation
    (paymentId : String) (now : Nat) (st : WrapperState)
    (hne : paymentId ≠ "")
    (hok : (handleOrderCreation paymentId now st).1 = none) :
    paymentId ∈ (handleOrderCreation paymentId now st).2.processedPaymentIds ∧
    (∀ st2 : WrapperState, paymentId ∈ st2.processedPaymentIds →
       paymentId ∈ (wrapperCleanup st2).processedPaymentIds) ∧
    (∀ (now2 : Nat) (st3 : WrapperState), paymentId ∈ st3.processedPaymentIds →
       (handleOrderCreation paymentId now2 st3).1.isSome = true ∧
       (handleOrderCreation paymentId now2 st3).2 = st3) ∧
    (∀ (now4 : Nat) (st4 : OrderOpsState), paymentId ∈ st4.pendingOrderIds →
       (addOrder paymentId now4 st4).1.isSome = true ∧
       (addOrder paymentId now4 st4).2 = st4) ∧
    (∀ st5 : OrderOpsState, paymentId ∈ st5.pendingOrderIds →
       paymentId ∈ (orderOpsCleanup st5).pendingOrderIds) := by
  have hsafe : safePaymentIdOf paymentId now = paymentId := if_neg hne
  refine ⟨?_, ?_, ?_, ?_, ?_⟩
  · by_cases hdup : (safePaymentIdOf paymentId now ∈ st.processedPaymentIds
        ∨ safePaymentIdOf paymentId now ∈ st.localProcessedPaymentIds)
    · exfalso
      unfold handleOrderCreation at hok
      rw [if_pos hdup] at hok
      cases hok
    · by_cases hb : st.isProcessing = true
      · exfalso
        unfold handleOrderCreation at hok
        rw [if_neg hdup] at hok
        simp [hb] at hok
      · have hb2 : st.isProcessing = false := by
          cases hx : st.isProcessing
          · rfl
          · exact absurd hx hb
        unfold handleOrderCreation
        rw [if_neg hdup]
        simp [hb2, hsafe]
  · intro st2 h2
    simpa [wrapperCleanup] using h2
  · intro now2 st3 h3
    have hsafe2 : safePaymentIdOf paymentId now2 = paymentId := if_neg hne
    unfold handleOrderCreation
    rw [if_pos (by rw [hsafe2]; exact Or.inl h3)]
    exact ⟨rfl, rfl⟩
  · intro now4 st4 h4
    have hsafe4 : orderPaymentIdOf paymentId now4 = paymentId := if_neg hne
    unfold addOrder
    split
    · exact ⟨rfl, rfl⟩
    · rw [if_pos (by rw [hsafe4]; exact h4)]
      exact ⟨rfl, rfl⟩
  · intro st5 h5
    simpa [orderOpsCleanup] using h5

/-- Witness for C2: creating "p1" on a fresh wrapper registers it; a later
instance (fresh local state, shared registry after cleanup) is rejected with
the state untouched, and an `addOrder` against a store registry holding "p1"
is rejected too. -/
theorem wrapper_registry_retained_blocks_recreation_witness :
    "p1" ∈ (handleOrderCreation "p1" 0 freshWrapperState).2.processedPaymentIds ∧
    (handleOrderCreation "p1" 7
        { processedPaymentIds := ["p1"], localProcessedPaymentIds := [],
          isProcessing := false, createOrderCalls := 0 }).1.isSome = true ∧
    (addOrder "p1" 9
        { pendingOrder := false, processingRef := none, pendingOrderIds := ["p1"],
          orders := ["p1"] }).2.orders = ["p1"] := by
  have h := wrapper_registry_retained_blocks_recreation "p1" 0 freshWrapperState
      (by decide) (by decide)
  refine ⟨h.1, (h.2.2.1 7 _ (by decide)).1, ?_⟩
  rw [(h.2.2.2.1 9 _ (by decide)).2]

theorem createOrderCheckAndClaim_fail_of_mem
    (paymentId : String) (i : Nat) (g : CheckoutGlobal)
    (hmem : paymentId ∈ g.globalPaymentsInProgress) :
    (createOrderCheckAndClaim paymentId i g).1.isSome = true ∧
    (createOrderCheckAndClaim paymentId i g).2 = g := by
  unfold createOrderCheckAndClaim
  split
  · exact ⟨rfl, rfl⟩
  · split
    · exact ⟨rfl, rfl⟩
    · exact ⟨rfl, rfl⟩

theorem runChecks_all_fail
    (paymentId : String) (invs : List Nat) (g : CheckoutGlobal)
    (hmem : paymentId ∈ g.globalPaymentsInProgress) :
    (runChecks paymentId invs g).1.countP (·.isSome) = invs.length ∧
    (runChecks paymentId invs g).1.countP (·.isNone) = 0 ∧
    (runChecks paymentId invs g).2 = g := by
  induction invs with
  | nil => exact ⟨rfl, rfl, rfl⟩
  | cons i rest ih =>
      obtain ⟨h1, h2⟩ := createOrderCheckAndClaim_fail_of_mem paymentId i g hmem
      obtain ⟨ha, hb, hc⟩ := ih
      have hnone : (createOrderCheckAndClaim paymentId i g).1.isNone = false := by
        cases hx : (createOrderCheckAndClaim paymentId i g).1 with
        | none => rw [hx] at h1; cases h1
        | some m => rfl
      unfold runChecks
      rw [h2]
      refine ⟨?_, ?_, hc⟩
      · simp [List.countP_cons, ha, h1]
      · simp [List.countP_cons, hb, hnone]

/-- Claim C1: with every instance idle, no order yet created for the payment id
and the id unclaimed, any number of interleaved `createOrder` invocations for
the same payment id — each running its atomic duplicate-check-and-claim step
before any invocation completes — produce exactly one invocation that passes
(the first scheduled) and persists exactly one order, while all the others
throw a duplicate error with the store untouched. -/
theorem createOrder_interleaved_at_most_once
    (paymentId : String) (first : Nat) (rest : List Nat) (g : CheckoutGlobal)
    (hidle : ∀ i, (g.insts i).processing = false)
    (hnew : ∀ i, (g.insts i).orderCreated ≠ some paymentId)
    (hunclaimed : paymentId ∉ g.globalPaymentsInProgress) :
    (runChecks paymentId (first :: rest) g).1.countP (·.isNone) = 1 ∧
    (runChecks paymentId (first :: rest) g).1.countP (·.isSome) = rest.length ∧
    (runChecks paymentId (first :: rest) g).1.head? = some none ∧
    (runChecks paymentId (first :: rest) g).2.store = g.store ∧
    (createOrderPersist paymentId first (runChecks paymentId (first :: rest) g).2).store.count
        paymentId = g.store.count paymentId + 1 := by
  have hfirst : createOrderCheckAndClaim paymentId first g =
      (none, { g with
        insts := setInst g.insts first { g.insts first with processing := true }
        globalPaymentsInProgress := paymentId :: g.globalPaymentsInProgress }) := by
    unfold createOrderCheckAndClaim
    rw [if_neg (by rw [hidle first]; exact Bool.false_ne_true),
        if_neg (hnew first), if_neg hunclaimed]
  have hmem1 : paymentId ∈ (createOrderCheckAndClaim paymentId first g).2.globalPaymentsInProgress := by
    rw [hfirst]
    exact List.mem_cons_self _ _
  have htail := runChecks_all_fail paymentId rest
      (createOrderCheckAndClaim paymentId first g).2 hmem1
  obtain ⟨ha, hb, hc⟩ := htail
  have hrun : runChecks paymentId (first :: rest) g =
      ((createOrderCheckAndClaim paymentId first g).1 ::
        (runChecks paymentId rest (createOrderCheckAndClaim paymentId first g).2).1,
       (runChecks paymentId rest (createOrderCheckAndClaim paymentId first g).2).2) := rfl
  rw [hrun]
  have hnone : (createOrderCheckAndClaim paymentId first g).1 = none := by rw [hfirst]
  refine ⟨?_, ?_, ?_, ?_, ?_⟩
  · rw [List.countP_cons, hb, hnone]
    rfl
  · rw [List.countP_cons, ha, hnone]
    rfl
  · rw [hnone]
    rfl
  · rw [hc, hfirst]
  · rw [hc, hfirst]
    simp [createOrderPersist, List.count_cons_self]

/-- Witness for C1: three interleaved invocations of `createOrder` for "p1"
from three distinct instances over a clean state: one passes, two fail, and the
store ends with exactly one order for "p1". -/
theorem createOrder_interleaved_at_most_once_witness :
    (runChecks "p1" [0, 1, 2] cleanCheckoutState).1.countP (·.isNone) = 1 ∧
    (runChecks "p1" [0, 1, 2] cleanCheckoutState).1.countP (·.isSome) = 2 ∧
    (createOrderPersist "p1" 0 (runChecks "p1" [0, 1, 2] cleanCheckoutState).2).store.count "p1"
      = 1 := by
  have h := createOrder_interleaved_at_most_once "p1" 0 [1, 2] cleanCheckoutState
      (fun _ => rfl) (fun _ hx => by cases hx) (by simp [cleanCheckoutState])
  refine ⟨h.1, h.2.1, ?_⟩
  have h5 := h.2.2.2.2
  simpa [cleanCheckoutState] using h5

/-- Counterexample to claim C6: instance 0 claims "p1" and never completes; the
30-second safety timeout fires, yet a fresh `createOrder` for the same payment
id — even from another instance — still fails its duplicate checks, because the
timeout resets only the instance busy flag and not the global in-progress
entry. -/
theorem safetyTimeout_does_not_release_global_claim :
    (createOrderCheckAndClaim "p1" 0 cleanCheckoutState).1 = none ∧
    (createOrderCheckAndClaim "p1" 1
        (safetyTimeoutReset 0 (createOrderCheckAndClaim "p1" 0 cleanCheckoutState).2)).1
      = some "This payment is already being processed" ∧
    (createOrderCheckAndClaim "p1" 0
        (safetyTimeoutReset 0 (createOrderCheckAndClaim "p1" 0 cleanCheckoutState).2)).1
      = some "This payment is already being processed" := by
  refine ⟨rfl, rfl, rfl⟩

/-- Amended claim C6: for an attempt that claimed a payment id and never
completed, the 30-second safety timeout releases only the instance-level busy
flag — the instance accepts fresh `createOrder` calls for unclaimed payment
ids — while the global in-progress entry for the stuck payment id is retained,
so a fresh `createOrder` for the same payment id still fails the duplicate
checks on every instance. -/
theorem safetyTimeout_releases_instance_flag_only
    (paymentId : String) (i j : Nat) (g : CheckoutGlobal)
    (hclaimed : paymentId ∈ g.globalPaymentsInProgress) :
    ((safetyTimeoutReset i g).insts i).processing = false ∧
    (safetyTimeoutReset i g).globalPaymentsInProgress = g.globalPaymentsInProgress ∧
    (createOrderCheckAndClaim paymentId j (safetyTimeoutReset i g)).1.isSome = true ∧
    (createOrderCheckAndClaim paymentId j (safetyTimeoutReset i g)).2 = safetyTimeoutReset i g ∧
    (∀ paymentId2, paymentId2 ∉ g.globalPaymentsInProgress →
       (g.insts i).orderCreated ≠ some paymentId2 →
       (createOrderCheckAndClaim paymentId2 i (safetyTimeoutReset i g)).1 = none) := by
  have hflag : ((safetyTimeoutReset i g).insts i) =
      { g.insts i with processing := false } := by
    simp [safetyTimeoutReset, setInst]
  have hmap : (safetyTimeoutReset i g).globalPaymentsInProgress
      = g.globalPaymentsInProgress := rfl
  have hfail := createOrderCheckAndClaim_fail_of_mem paymentId j (safetyTimeoutReset i g)
      (by rw [hmap]; exact hclaimed)
  refine ⟨by rw [hflag], hmap, hfail.1, hfail.2, ?_⟩
  intro paymentId2 hnot hord
  unfold createOrderCheckAndClaim
  rw [if_neg (by rw [hflag]; exact Bool.false_ne_true),
      if_neg (by rw [hflag]; exact hord),
      if_neg (by rw [hmap]; exact hnot)]

/-- Witness for C6 (amended): after instance 0 claims "p1" and the safety
timeout fires, instance 0 is no longer busy, a retry of "p1" fails, and a fresh
payment "p2" passes its checks on the same instance. -/
theorem safetyTimeout_releases_instance_flag_only_witness :
    (((safetyTimeoutReset 0 (createOrderCheckAndClaim "p1" 0 cleanCheckoutState).2).insts 0).processing
        = false) ∧
    (createOrderCheckAndClaim "p1" 0
        (safetyTimeoutReset 0 (createOrderCheckAndClaim "p1" 0 cleanCheckoutState).2)).1.isSome
      = true ∧
    (createOrderCheckAndClaim "p2" 0
        (safetyTimeoutReset 0 (createOrderCheckAndClaim "p1" 0 cleanCheckoutState).2)).1
      = none := by
  have h := safetyTimeout_releases_instance_flag_only "p1" 0 0
      (createOrderCheckAndClaim "p1" 0 cleanCheckoutState).2 (by decide)
  exact ⟨h.1, h.2.2.1, h.2.2.2.2 "p2" (by decide) (by decide)⟩

theorem stripNonDigits_all_isDigit (s : String) :
    (stripNonDigits s).data.all Char.isDigit = true := by
  unfold stripNonDigits
  rw [List.all_eq_true]
  intro ch hch
  exact (List.mem_filter.mp hch).2

/-- Counterexample to claim C8: `prepareCustomerData` forwards the CPF exactly
as typed — punctuation included — while it does strip the postal code, so the
customer data sent towards the order store does not have both fields reduced to
digits. -/
theorem prepareCustomerData_cpf_not_stripped :
    (prepareCustomerData c8FormState).cpf = "111.444.777-35" ∧
    (prepareCustomerData c8FormState).cpf ≠ stripNonDigits c8FormState.cpf ∧
    ((prepareCustomerData c8FormState).cpf.data.all Char.isDigit) = false ∧
    ((prepareCustomerData c8FormState).address.map (fun a => a.postalCode))
      = some "01310100" := by
  refine ⟨rfl, by decide, by decide, by decide⟩

/-- Amended claim C8: in the customer data sent to the order store,
`prepareCustomerData` reduces only the postal code to digits (and only when a
street is present, since the address is built only then); the CPF is passed
through unchanged, with no stripping at this layer. -/
theorem prepareCustomerData_postal_stripped_cpf_passthrough
    (formState : CheckoutFormState) :
    (prepareCustomerData formState).cpf = formState.cpf ∧
    ((prepareCustomerData formState).address.map (fun a => a.postalCode)
       = if formState.street = "" then none else some (stripNonDigits formState.cep)) ∧
    (∀ a, (prepareCustomerData formState).address = some a →
       a.postalCode.data.all Char.isDigit = true) := by
  refine ⟨rfl, ?_, ?_⟩
  · unfold prepareCustomerData
    split <;> simp
  · intro a ha
    unfold prepareCustomerData at ha
    split at ha
    · cases ha
    · injection ha with ha
      rw [← ha]
      exact stripNonDigits_all_isDigit formState.cep

end Checkout
